import Mathlib

/-!
Verification development for the ArduPilot multicopter motor output stage
(`AP_MotorsMulticopter.cpp`): a shallow embedding of the spool state
machine, PWM conversion, throttle filter, current limiter, actuator slew
limiter, hover learner, arming checks and per-motor thrust getters, with
theorems about the stated properties.

Floating-point values are modelled as rationals; the `int16_t` conversion
at the end of `output_to_pwm` is modelled as truncation toward zero.
-/

namespace MotorsMC

/-- Spool state of the motors, `AP_Motors::SpoolState`. -/
inductive SpoolState where
  | SHUT_DOWN
  | GROUND_IDLE
  | SPOOLING_UP
  | THROTTLE_UNLIMITED
  | SPOOLING_DOWN
deriving DecidableEq, Repr

/-- Desired spool state, `AP_Motors::DesiredSpoolState`. -/
inductive DesiredSpoolState where
  | SHUT_DOWN
  | GROUND_IDLE
  | THROTTLE_UNLIMITED
deriving DecidableEq, Repr

/-- Hover-throttle learning mode (`HOVER_LEARN_*`). -/
inductive HoverLearn where
  | DISABLED
  | LEARN
  | LEARN_AND_SAVE
deriving DecidableEq, Repr

/-- The `limit` flag set of the motors class. -/
structure LimitFlags where
  roll : Bool
  pitch : Bool
  yaw : Bool
  throttle_lower : Bool
  throttle_upper : Bool
deriving DecidableEq, Repr

/-- All limit flags raised (used in SHUT_DOWN and GROUND_IDLE). -/
def limitsAllTrue : LimitFlags :=
  { roll := true, pitch := true, yaw := true,
    throttle_lower := true, throttle_upper := true }

/-- All limit flags cleared (used in the flying spool states). -/
def limitsAllFalse : LimitFlags :=
  { roll := false, pitch := false, yaw := false,
    throttle_lower := false, throttle_upper := false }

/-- ArduPilot `constrain_float(value, low, high)`: returns `low` when
`value < low`, `high` when `value > high`, and `value` otherwise. -/
def constrain_float (v lo hi : ℚ) : ℚ :=
  if v < lo then lo else if v > hi then hi else v

/-- Truncation toward zero, the semantics of the C++ float-to-`int16_t`
conversion at the end of `output_to_pwm`. -/
def truncQ (x : ℚ) : ℤ :=
  if x < 0 then ⌈x⌉ else ⌊x⌋

/-- `AP_MOTORS_MAX_NUM_MOTORS`.  Modelled from the spec: the constant lives
in a header outside this file; the spec calls it `MAX_NUM_MOTORS` and the
auxiliary surfaces iterate motors `0 .. MAX-1`. -/
def AP_MOTORS_MAX_NUM_MOTORS : ℕ := 32

/-- Battery-monitor reading consumed by `get_current_limit_max_throttle`
(spec §6.1): measured current when available, voltage, and internal
resistance. -/
structure BattInput where
  current_amps : Option ℚ
  voltage : ℚ
  resistance : ℚ

/-- State and parameters of `AP_MotorsMulticopter` used by the verified
functions.  Fields keep the source names without the leading underscore.
`throttle_filter` is the low-pass filter state; `throttle_filter_tau` its
time constant (set by the surrounding control loop, outside this file). -/
structure Motors where
  armed : Bool
  interlock : Bool
  spool_desired : DesiredSpoolState
  spool_state : SpoolState
  spin_up_ratio : ℚ
  throttle_thrust_max : ℚ
  disarm_safe_timer : ℚ
  throttle_limit : ℚ
  thrust_boost : Bool
  thrust_balanced : Bool
  thrust_boost_ratio : ℚ
  throttle_filter : ℚ
  throttle_filter_tau : ℚ
  throttle_in : ℚ
  limit : LimitFlags
  spoolup_block : Bool
  dt_s : ℚ
  safe_time : ℚ
  spool_up_time : ℚ
  spool_down_time : ℚ
  slew_up_time : ℚ
  slew_dn_time : ℚ
  disarm_disable_pwm : Bool
  batt_current_max : ℚ
  batt_current_time_constant : ℚ
  batt_voltage_min : ℚ
  throttle_hover : ℚ
  hover_learn : HoverLearn
  spin_arm : ℚ
  spin_min : ℚ
  spin_max : ℚ
  pwm_min : ℤ
  pwm_max : ℤ
  motor_enabled : ℕ → Bool
  actuator : ℕ → ℚ

/-- Modelled from the spec: the base-class `get_throttle()` (outside this
file) returns the filtered throttle constrained to `[0,1]`. -/
def get_throttle (m : Motors) : ℚ :=
  constrain_float m.throttle_filter 0 1

/-- Modelled from the spec §4.1: one application of the first-order
low-pass filter, `y += (dt/(dt+τ))·(x − y)` (the filter class is outside
this file). -/
def lpf_apply (y x dt tau : ℚ) : ℚ :=
  y + (dt / (dt + tau)) * (x - y)

/-- `AP_MotorsMulticopter::update_throttle_filter`, effect on the throttle
filter state: when armed, apply the low-pass to `throttle_in` and reset the
state to the violated bound when it leaves `[0,1]`; when disarmed, reset
to 0.  The trailing throttle-slew-rate telemetry (driven by the wall
clock) writes only the `_throttle_slew_rate` telemetry value and is not
modelled. -/
def update_throttle_filter (m : Motors) : Motors :=
  if m.armed then
    let y1 := lpf_apply m.throttle_filter m.throttle_in m.dt_s m.throttle_filter_tau
    let y2 := if y1 < 0 then 0 else y1
    let y3 := if y2 > 1 then 1 else y2
    { m with throttle_filter := y3 }
  else
    { m with throttle_filter := 0 }

/-- `AP_MotorsMulticopter::get_current_limit_max_throttle`: returns the
throttle ceiling and the updated `_throttle_limit` member.  If current
limiting is disabled, the vehicle is disarmed, no current measurement is
available, or the measured battery resistance is zero, it returns 1 and
resets `_throttle_limit` to 1; otherwise it integrates the current
headroom ratio into `_throttle_limit`, clamps it to `[0.2, 1]`, and
returns `throttle_hover + (1 − throttle_hover)·throttle_limit`. -/
def get_current_limit_max_throttle (m : Motors) (batt : BattInput) : ℚ × ℚ :=
  match batt.current_amps with
  | none => (1, 1)
  | some batt_current =>
    if m.batt_current_max ≤ 0 ∨ m.armed = false then (1, 1)
    else if batt.resistance = 0 then (1, 1)
    else
      let batt_current_max :=
        min m.batt_current_max
          (batt_current + (batt.voltage - m.batt_voltage_min) / batt.resistance)
      let batt_current_ratio := batt_current / batt_current_max
      let tl1 := m.throttle_limit +
        (m.dt_s / (m.dt_s + m.batt_current_time_constant)) * (1 - batt_current_ratio)
      let tl2 := constrain_float tl1 0.2 1
      (m.throttle_hover + (1 - m.throttle_hover) * tl2, tl2)

/-- `AP_MotorsMulticopter::output_to_pwm`: in SHUT_DOWN, 0 when
`disarm_disable_pwm` is set and the motors are disarmed, else `pwm_min`;
in every other spool state `pwm_min + (pwm_max − pwm_min)·actuator`,
converted to `int16_t` (truncation toward zero). -/
def output_to_pwm (m : Motors) (actuator : ℚ) : ℤ :=
  let pwm_output : ℚ :=
    if m.spool_state = SpoolState.SHUT_DOWN then
      if m.disarm_disable_pwm && !m.armed then 0
      else (m.pwm_min : ℚ)
    else
      (m.pwm_min : ℚ) + ((m.pwm_max : ℚ) - (m.pwm_min : ℚ)) * actuator
  truncQ pwm_output

/-- `AP_MotorsMulticopter::set_actuator_with_slew`: bounds the new output
between `actuator_output ± dt/constrain(slew_time, 0, 0.5)` (each side
only when its slew time is positive), both bounds constrained to `[0,1]`. -/
def set_actuator_with_slew (m : Motors) (actuator_output input : ℚ) : ℚ :=
  let output_slew_limit_up :=
    if 0 < m.slew_up_time then
      constrain_float
        (actuator_output + m.dt_s / constrain_float m.slew_up_time 0 0.5) 0 1
    else 1
  let output_slew_limit_dn :=
    if 0 < m.slew_dn_time then
      constrain_float
        (actuator_output - m.dt_s / constrain_float m.slew_dn_time 0 0.5) 0 1
    else 0
  constrain_float input output_slew_limit_dn output_slew_limit_up

/-- Modelled from the spec (§4.5, §4.6 and the comment in
`set_actuator_with_slew`): the frame-specific `output_to_motors` (outside
this file) writes each enabled motor's actuator; in SHUT_DOWN the actuator
is set to zero immediately, bypassing the slew limiter, and in the other
spool states the commanded value goes through `set_actuator_with_slew`. -/
def output_to_motors_actuator (m : Motors) (i : ℕ) (input : ℚ) : ℚ :=
  if m.spool_state = SpoolState.SHUT_DOWN then 0
  else set_actuator_with_slew m (m.actuator i) input

/-- `AP_MOTORS_THST_HOVER_TC`.  Modelled from the spec: the learner's time
constant `τ_H` is a header constant outside this file. -/
def AP_MOTORS_THST_HOVER_TC : ℚ := 10

/-- `AP_MOTORS_THST_HOVER_MIN` (spec: hover throttle lower bound). -/
def AP_MOTORS_THST_HOVER_MIN : ℚ := 0.125

/-- `AP_MOTORS_THST_HOVER_MAX` (spec: hover throttle upper bound). -/
def AP_MOTORS_THST_HOVER_MAX : ℚ := 0.6875

/-- `AP_MotorsMulticopter::update_throttle_hover`: when learning is
enabled, move `throttle_hover` toward the current throttle by the
first-order step and constrain to `[0.125, 0.6875]`. -/
def update_throttle_hover (m : Motors) (dt : ℚ) : Motors :=
  if m.hover_learn ≠ HoverLearn.DISABLED then
    let hover :=
      constrain_float
        (m.throttle_hover +
          (dt / (dt + AP_MOTORS_THST_HOVER_TC)) * (get_throttle m - m.throttle_hover))
        AP_MOTORS_THST_HOVER_MIN AP_MOTORS_THST_HOVER_MAX
    { m with throttle_hover := hover }
  else m

/-- `AP_MotorsMulticopter::check_mot_pwm_params`: `pwm_min ≥ 1` and
`pwm_min < pwm_max`. -/
def check_mot_pwm_params (m : Motors) : Bool :=
  !(m.pwm_min < 1 || m.pwm_min ≥ m.pwm_max)

/-- `minimum_spool_time` local constant of `output_logic`. -/
def minimum_spool_time : ℚ := 0.05

/-- First part of `AP_MotorsMulticopter::output_logic`: the disarm safety
timer update, the forced transition to SHUT_DOWN when disarmed or not
interlocked, and the lower clamp of `_spool_up_time`. -/
def output_logic_pre (m : Motors) : Motors :=
  let m :=
    if m.armed then
      if m.disarm_disable_pwm && decide (m.disarm_safe_timer < m.safe_time) then
        { m with disarm_safe_timer := m.disarm_safe_timer + m.dt_s }
      else
        { m with disarm_safe_timer := m.safe_time }
    else
      { m with disarm_safe_timer := 0 }
  let m :=
    if !m.armed || !m.interlock then
      { m with spool_desired := DesiredSpoolState.SHUT_DOWN,
               spool_state := SpoolState.SHUT_DOWN }
    else m
  if m.spool_up_time < minimum_spool_time then
    { m with spool_up_time := minimum_spool_time }
  else m

/-- The `switch (_spool_state)` body of `output_logic`.  Each call to
`get_current_limit_max_throttle` in the source both yields a value and
updates `_throttle_limit`; that threading is made explicit. -/
def output_logic_switch (m : Motors) (batt : BattInput) : Motors :=
  match m.spool_state with
  | SpoolState.SHUT_DOWN =>
    let m := { m with limit := limitsAllTrue }
    if m.spool_desired ≠ DesiredSpoolState.SHUT_DOWN ∧
        m.disarm_safe_timer ≥ m.safe_time then
      { m with spool_state := SpoolState.GROUND_IDLE }
    else
      { m with spin_up_ratio := 0, throttle_thrust_max := 0,
               thrust_boost := false, thrust_boost_ratio := 0 }
  | SpoolState.GROUND_IDLE =>
    let m := { m with limit := limitsAllTrue }
    let m :=
      match m.spool_desired with
      | DesiredSpoolState.SHUT_DOWN =>
        let spool_time :=
          if m.spool_down_time > minimum_spool_time then m.spool_down_time
          else m.spool_up_time
        let spool_step := m.dt_s / spool_time
        let r := m.spin_up_ratio - spool_step
        if r ≤ 0 then
          { m with spin_up_ratio := 0, spool_state := SpoolState.SHUT_DOWN }
        else
          { m with spin_up_ratio := r }
      | DesiredSpoolState.THROTTLE_UNLIMITED =>
        let spool_step := m.dt_s / m.spool_up_time
        let r := m.spin_up_ratio + spool_step
        if r ≥ 1 then
          if !m.spoolup_block then
            { m with spin_up_ratio := 1, spool_state := SpoolState.SPOOLING_UP }
          else
            { m with spin_up_ratio := 1 }
        else
          { m with spin_up_ratio := r }
      | DesiredSpoolState.GROUND_IDLE =>
        let spool_up_step := m.dt_s / m.spool_up_time
        let spool_down_time :=
          if m.spool_down_time > minimum_spool_time then m.spool_down_time
          else m.spool_up_time
        let spool_down_step := m.dt_s / spool_down_time
        let spin_up_armed_ratio :=
          if m.spin_min > 0 then m.spin_arm / m.spin_min else 0
        let step :=
          constrain_float (spin_up_armed_ratio - m.spin_up_ratio)
            (-spool_down_step) spool_up_step
        { m with spin_up_ratio := m.spin_up_ratio + step }
    { m with throttle_thrust_max := 0,
             thrust_boost := false, thrust_boost_ratio := 0 }
  | SpoolState.SPOOLING_UP =>
    let spool_step := m.dt_s / m.spool_up_time
    let m := { m with limit := limitsAllFalse }
    if m.spool_desired ≠ DesiredSpoolState.THROTTLE_UNLIMITED then
      { m with spool_state := SpoolState.SPOOLING_DOWN }
    else
      let m := { m with spin_up_ratio := 1,
                        throttle_thrust_max := m.throttle_thrust_max + spool_step }
      let p1 := get_current_limit_max_throttle m batt
      let m := { m with throttle_limit := p1.2 }
      let m :=
        if m.throttle_thrust_max ≥ min (get_throttle m) p1.1 then
          let p2 := get_current_limit_max_throttle m batt
          { m with throttle_limit := p2.2, throttle_thrust_max := p2.1,
                   spool_state := SpoolState.THROTTLE_UNLIMITED }
        else if m.throttle_thrust_max < 0 then
          { m with throttle_thrust_max := 0 }
        else m
      { m with thrust_boost := false,
               thrust_boost_ratio := max 0 (m.thrust_boost_ratio - spool_step) }
  | SpoolState.THROTTLE_UNLIMITED =>
    let spool_step := m.dt_s / m.spool_up_time
    let m := { m with limit := limitsAllFalse }
    if m.spool_desired ≠ DesiredSpoolState.THROTTLE_UNLIMITED then
      { m with spool_state := SpoolState.SPOOLING_DOWN }
    else
      let p := get_current_limit_max_throttle m batt
      let m := { m with spin_up_ratio := 1, throttle_thrust_max := p.1,
                        throttle_limit := p.2 }
      if m.thrust_boost && !m.thrust_balanced then
        { m with thrust_boost_ratio := min 1 (m.thrust_boost_ratio + spool_step) }
      else
        { m with thrust_boost_ratio := max 0 (m.thrust_boost_ratio - spool_step) }
  | SpoolState.SPOOLING_DOWN =>
    let m := { m with limit := limitsAllFalse }
    if m.spool_desired = DesiredSpoolState.THROTTLE_UNLIMITED then
      { m with spool_state := SpoolState.SPOOLING_UP }
    else
      let m := { m with spin_up_ratio := 1 }
      let spool_time :=
        if m.spool_down_time > minimum_spool_time then m.spool_down_time
        else m.spool_up_time
      let spool_step := m.dt_s / spool_time
      let m := { m with throttle_thrust_max := m.throttle_thrust_max - spool_step }
      let m :=
        if m.throttle_thrust_max ≤ 0 then { m with throttle_thrust_max := 0 }
        else m
      let p1 := get_current_limit_max_throttle m batt
      let m := { m with throttle_limit := p1.2 }
      let m :=
        if m.throttle_thrust_max ≥ p1.1 then
          let p2 := get_current_limit_max_throttle m batt
          { m with throttle_limit := p2.2, throttle_thrust_max := p2.1 }
        else if m.throttle_thrust_max = 0 then
          { m with spool_state := SpoolState.GROUND_IDLE }
        else m
      { m with thrust_boost_ratio := max 0 (m.thrust_boost_ratio - spool_step) }

/-- `AP_MotorsMulticopter::output_logic`: the full spool state machine
step. -/
def output_logic (m : Motors) (batt : BattInput) : Motors :=
  output_logic_switch (output_logic_pre m) batt

/-- Environment for `arming_checks` (spec §6.1): the result of the
base-class checks together with the message it wrote on failure, and
whether `find_channel` succeeds for each motor's function. -/
structure ArmingEnv where
  base_checks : Bool
  base_msg : String
  find_channel : ℕ → Bool

/-- The parameter prefix baked into arming-check messages
(`AP_MOTORS_PARAM_PREFIX`, multirotor build). -/
def mot_param_pfx : String := "MOT_"

/-- `AP_MotorsMulticopter::arming_checks`: base checks, a channel function
for every enabled motor, `spin_min ≤ 0.3`, `spin_arm ≤ spin_min`, and the
PWM parameter check, in that order; the second component is the message
written to the caller's buffer on failure (the numeric `%.2f` of the
SPIN_MIN message is elided). -/
def arming_checks (m : Motors) (env : ArmingEnv) : Bool × Option String :=
  if !env.base_checks then
    (false, some env.base_msg)
  else
    match (List.range AP_MOTORS_MAX_NUM_MOTORS).find?
        (fun i => m.motor_enabled i && !env.find_channel i) with
    | some i =>
      (false, some ("no SERVOx_FUNCTION set to Motor" ++ toString (i + 1)))
    | none =>
      if m.spin_min > 0.3 then
        (false, some (mot_param_pfx ++ "SPIN_MIN too high"))
      else if m.spin_arm > m.spin_min then
        (false, some (mot_param_pfx ++ "SPIN_ARM > " ++ mot_param_pfx ++ "SPIN_MIN"))
      else if !check_mot_pwm_params m then
        (false, some ("Check " ++ mot_param_pfx ++ "PWM_MIN and " ++
          mot_param_pfx ++ "PWM_MAX"))
      else
        (true, none)

/-- Substring test used to state the claim about the arming-check
message. -/
def strContains (s pat : String) : Bool :=
  s.data.tails.any (fun t => pat.data.isPrefixOf t)

/-- `AP_MotorsMulticopter::get_raw_motor_throttle`: `none` models
returning false with the output reference unwritten. -/
def get_raw_motor_throttle (m : Motors) (motor_num : ℕ) : Option ℚ :=
  if motor_num ≥ AP_MOTORS_MAX_NUM_MOTORS ∨ m.motor_enabled motor_num = false then
    none
  else
    some (constrain_float (m.actuator motor_num) 0 1)

/-- `AP_MotorsMulticopter::get_thrust`.  The thrust linearisation inverse
`actuator_to_thrust` and the compensation gain live in
`Thrust_Linearization.cpp`, outside this file; modelled from the spec
(§4.2: the inverse of the thrust curve, and the battery compensation
gain) as explicit arguments `a2t` and `comp_gain`. -/
def get_thrust (m : Motors) (a2t : ℚ → ℚ) (comp_gain : ℚ)
    (motor_num : ℕ) : Option ℚ :=
  if motor_num ≥ AP_MOTORS_MAX_NUM_MOTORS ∨ m.motor_enabled motor_num = false then
    none
  else
    some (a2t (constrain_float (m.actuator motor_num) m.spin_min m.spin_max)
      / comp_gain)

/-- Concrete quadcopter state used to instantiate the theorems (spec S1:
armed, interlocked, throttle 0.5, dt 0.0025 s, spool_up_time 0.5 s,
default parameters). -/
def m0 : Motors :=
  { armed := true, interlock := true,
    spool_desired := DesiredSpoolState.THROTTLE_UNLIMITED,
    spool_state := SpoolState.SHUT_DOWN,
    spin_up_ratio := 0, throttle_thrust_max := 0, disarm_safe_timer := 0,
    throttle_limit := 1, thrust_boost := false, thrust_balanced := true,
    thrust_boost_ratio := 0, throttle_filter := 0.5, throttle_filter_tau := 0,
    throttle_in := 0.5, limit := limitsAllTrue, spoolup_block := false,
    dt_s := 0.0025, safe_time := 0, spool_up_time := 0.5, spool_down_time := 0,
    slew_up_time := 0, slew_dn_time := 0, disarm_disable_pwm := false,
    batt_current_max := 0, batt_current_time_constant := 5,
    batt_voltage_min := 13.2, throttle_hover := 0.35,
    hover_learn := HoverLearn.LEARN,
    spin_arm := 0.1, spin_min := 0.15, spin_max := 0.95,
    pwm_min := 1000, pwm_max := 2000,
    motor_enabled := fun i => i < 4, actuator := fun _ => 0.5 }

/-- Battery input with no current telemetry. -/
def batt0 : BattInput :=
  { current_amps := none, voltage := 14.4, resistance := 0 }

/-- Battery input sustaining 70 A with 0.01 Ω internal resistance
(spec S4). -/
def battCur : BattInput :=
  { current_amps := some 70, voltage := 14.4, resistance := 1 / 100 }

theorem constrain_float_mem (v lo hi : ℚ) (h : lo ≤ hi) :
    lo ≤ constrain_float v lo hi ∧ constrain_float v lo hi ≤ hi := by
  unfold constrain_float
  split_ifs <;> constructor <;> linarith

theorem constrain_float_le_self (v lo hi : ℚ) (h : lo ≤ v) :
    constrain_float v lo hi ≤ v := by
  unfold constrain_float
  split_ifs <;> linarith

theorem self_le_constrain_float (v lo hi : ℚ) (h : v ≤ hi) :
    v ≤ constrain_float v lo hi := by
  unfold constrain_float
  split_ifs <;> linarith

theorem truncQ_mem (x : ℚ) (lo hi : ℤ) (hl : (lo : ℚ) ≤ x) (hh : x ≤ (hi : ℚ)) :
    lo ≤ truncQ x ∧ truncQ x ≤ hi := by
  unfold truncQ
  split_ifs with h
  · refine ⟨?_, Int.ceil_le.mpr hh⟩
    have : (lo : ℚ) ≤ (⌈x⌉ : ℚ) := hl.trans (Int.le_ceil x)
    exact_mod_cast this
  · refine ⟨Int.le_floor.mpr hl, ?_⟩
    have : (⌊x⌋ : ℚ) ≤ (hi : ℚ) := (Int.floor_le x).trans hh
    exact_mod_cast this

theorem truncQ_intCast (n : ℤ) : truncQ (n : ℚ) = n := by
  unfold truncQ
  split_ifs <;> simp

/-- C3: if `armed == false` then after one call to
`update_throttle_filter` the throttle filter output equals 0. -/
theorem C3_disarmed_filter_zero (m : Motors) (h : m.armed = false) :
    (update_throttle_filter m).throttle_filter = 0 := by
  simp [update_throttle_filter, h]

theorem C3_witness :
    ({ m0 with armed := false } : Motors).armed = false ∧
      (update_throttle_filter { m0 with armed := false }).throttle_filter = 0 :=
  ⟨rfl, C3_disarmed_filter_zero { m0 with armed := false } rfl⟩

/-- C7: when `spool_state == SHUT_DOWN` the slew limiter is bypassed and
the per-motor actuator output is set immediately to zero, regardless of
the slew time limits. -/
theorem C7_shutdown_zero_actuator (m : Motors) (i : ℕ) (input : ℚ)
    (h : m.spool_state = SpoolState.SHUT_DOWN) :
    output_to_motors_actuator m i input = 0 := by
  simp [output_to_motors_actuator, h]

theorem C7_witness :
    ({ m0 with
       spool_state := SpoolState.SHUT_DOWN,
       slew_up_time := 1 / 10,
       slew_dn_time := 1 / 10 } : Motors).spool_state = SpoolState.SHUT_DOWN ∧
      output_to_motors_actuator
        { m0 with
          spool_state := SpoolState.SHUT_DOWN,
          slew_up_time := 1 / 10,
          slew_dn_time := 1 / 10 } 0 (9 / 10) = 0 :=
  ⟨rfl, C7_shutdown_zero_actuator _ 0 (9 / 10) rfl⟩

/-- C9: `update_throttle_hover` keeps `throttle_hover` within
`[0.125, 0.6875]`, and leaves it unchanged when learning is disabled. -/
theorem C9_hover_learner (m : Motors) (dt : ℚ) (hdt : 0 ≤ dt)
    (h1 : AP_MOTORS_THST_HOVER_MIN ≤ m.throttle_hover)
    (h2 : m.throttle_hover ≤ AP_MOTORS_THST_HOVER_MAX) :
    (AP_MOTORS_THST_HOVER_MIN ≤ (update_throttle_hover m dt).throttle_hover ∧
      (update_throttle_hover m dt).throttle_hover ≤ AP_MOTORS_THST_HOVER_MAX) ∧
    (m.hover_learn = HoverLearn.DISABLED →
      (update_throttle_hover m dt).throttle_hover = m.throttle_hover) := by
  constructor
  · unfold update_throttle_hover
    split_ifs with h
    · simpa using constrain_float_mem _ _ _
        (by norm_num [AP_MOTORS_THST_HOVER_MIN, AP_MOTORS_THST_HOVER_MAX])
    · exact ⟨h1, h2⟩
  · intro hd
    unfold update_throttle_hover
    split_ifs with h
    · exact absurd hd h
    · rfl

theorem C9_witness :
    (0 : ℚ) ≤ 1 / 100 ∧
    AP_MOTORS_THST_HOVER_MIN ≤ m0.throttle_hover ∧
    m0.throttle_hover ≤ AP_MOTORS_THST_HOVER_MAX ∧
    (AP_MOTORS_THST_HOVER_MIN ≤ (update_throttle_hover m0 (1 / 100)).throttle_hover ∧
      (update_throttle_hover m0 (1 / 100)).throttle_hover ≤ AP_MOTORS_THST_HOVER_MAX) :=
  ⟨by norm_num, by norm_num [m0, AP_MOTORS_THST_HOVER_MIN],
    by norm_num [m0, AP_MOTORS_THST_HOVER_MAX],
    (C9_hover_learner m0 (1 / 100) (by norm_num)
      (by norm_num [m0, AP_MOTORS_THST_HOVER_MIN])
      (by norm_num [m0, AP_MOTORS_THST_HOVER_MAX])).1⟩

/-- C10: `get_thrust` and `get_raw_motor_throttle` return `none` (false,
output unwritten) for out-of-range or disabled motors, and on success
return the actuator clamped to `[0,1]` respectively the inverse-linearised
thrust of the actuator clamped to `[spin_min, spin_max]` divided by the
compensation gain. -/
theorem C10_thrust_getters (m : Motors) (a2t : ℚ → ℚ) (g : ℚ) (n : ℕ) :
    ((n ≥ AP_MOTORS_MAX_NUM_MOTORS ∨ m.motor_enabled n = false) →
      get_thrust m a2t g n = none ∧ get_raw_motor_throttle m n = none) ∧
    (n < AP_MOTORS_MAX_NUM_MOTORS → m.motor_enabled n = true →
      get_raw_motor_throttle m n = some (constrain_float (m.actuator n) 0 1) ∧
      get_thrust m a2t g n =
        some (a2t (constrain_float (m.actuator n) m.spin_min m.spin_max) / g)) := by
  constructor
  · intro h
    constructor <;> simp [get_thrust, get_raw_motor_throttle, h]
  · intro h1 h2
    constructor <;> simp [get_thrust, get_raw_motor_throttle, h1, h2, Nat.not_le.mpr h1]

theorem C10_witness :
    (get_thrust m0 (fun x => x) 1 40 = none ∧ get_raw_motor_throttle m0 40 = none) ∧
    (get_raw_motor_throttle m0 0 = some (constrain_float (m0.actuator 0) 0 1) ∧
      get_thrust m0 (fun x => x) 1 0 =
        some ((fun x : ℚ => x) (constrain_float (m0.actuator 0) m0.spin_min m0.spin_max) / 1)) :=
  ⟨(C10_thrust_getters m0 (fun x => x) 1 40).1 (Or.inl (by norm_num [AP_MOTORS_MAX_NUM_MOTORS])),
   (C10_thrust_getters m0 (fun x => x) 1 0).2 (by norm_num [AP_MOTORS_MAX_NUM_MOTORS]) rfl⟩

/-- C5: `get_current_limit_max_throttle` returns exactly 1 and resets
`throttle_limit` to 1 when disarmed, current limiting is disabled, no
current telemetry exists, or the measured battery resistance is zero; in
every other case `throttle_limit` is clamped to `[0.2, 1]` and the
returned ceiling `throttle_hover + (1 − throttle_hover)·throttle_limit`
lies in `[throttle_hover, 1]`. -/
theorem get_current_limit_max_throttle_some (m : Motors) (batt : BattInput)
    (i : ℚ) (hca : batt.current_amps = some i)
    (hcond : ¬(m.batt_current_max ≤ 0 ∨ m.armed = false))
    (hr : ¬(batt.resistance = 0)) :
    get_current_limit_max_throttle m batt =
      (m.throttle_hover + (1 - m.throttle_hover) *
          constrain_float
            (m.throttle_limit +
              m.dt_s / (m.dt_s + m.batt_current_time_constant) *
                (1 - i / min m.batt_current_max
                  (i + (batt.voltage - m.batt_voltage_min) / batt.resistance)))
            0.2 1,
        constrain_float
          (m.throttle_limit +
            m.dt_s / (m.dt_s + m.batt_current_time_constant) *
              (1 - i / min m.batt_current_max
                (i + (batt.voltage - m.batt_voltage_min) / batt.resistance)))
          0.2 1) := by
  unfold get_current_limit_max_throttle
  rw [hca]
  dsimp only
  rw [if_neg hcond, if_neg hr]

theorem C5_current_limit (m : Motors) (batt : BattInput) :
    ((m.armed = false ∨ m.batt_current_max ≤ 0 ∨ batt.current_amps = none ∨
        batt.resistance = 0) →
      get_current_limit_max_throttle m batt = (1, 1)) ∧
    (m.armed = true → 0 < m.batt_current_max → batt.current_amps ≠ none →
      batt.resistance ≠ 0 → m.throttle_hover ≤ 1 →
      (0.2 ≤ (get_current_limit_max_throttle m batt).2 ∧
        (get_current_limit_max_throttle m batt).2 ≤ 1) ∧
      m.throttle_hover ≤ (get_current_limit_max_throttle m batt).1 ∧
      (get_current_limit_max_throttle m batt).1 ≤ 1) := by
  constructor
  · intro h
    unfold get_current_limit_max_throttle
    cases hca : batt.current_amps with
    | none => rfl
    | some i =>
      dsimp only
      rcases h with h | h | h | h
      · rw [if_pos (Or.inr h)]
      · rw [if_pos (Or.inl h)]
      · rw [hca] at h
        exact absurd h (by simp)
      · by_cases h1 : m.batt_current_max ≤ 0 ∨ m.armed = false
        · rw [if_pos h1]
        · rw [if_neg h1, if_pos h]
  · intro ha hb hc hr hh
    cases hca : batt.current_amps with
    | none => exact absurd hca hc
    | some i =>
      rw [get_current_limit_max_throttle_some m batt i hca
        (by simp [ha, not_le.mpr hb]) hr]
      have hmem := constrain_float_mem
        (m.throttle_limit +
          m.dt_s / (m.dt_s + m.batt_current_time_constant) *
            (1 - i / min m.batt_current_max
              (i + (batt.voltage - m.batt_voltage_min) / batt.resistance)))
        0.2 1 (by norm_num)
      refine ⟨hmem, ?_, ?_⟩
      · have h0 : 0 ≤ (1 - m.throttle_hover) *
            constrain_float
              (m.throttle_limit +
                m.dt_s / (m.dt_s + m.batt_current_time_constant) *
                  (1 - i / min m.batt_current_max
                    (i + (batt.voltage - m.batt_voltage_min) / batt.resistance)))
              0.2 1 :=
          mul_nonneg (by linarith) (by linarith [hmem.1])
        dsimp only
        linarith
      · have h1 : (1 - m.throttle_hover) *
            constrain_float
              (m.throttle_limit +
                m.dt_s / (m.dt_s + m.batt_current_time_constant) *
                  (1 - i / min m.batt_current_max
                    (i + (batt.voltage - m.batt_voltage_min) / batt.resistance)))
              0.2 1 ≤ (1 - m.throttle_hover) * 1 :=
          mul_le_mul_of_nonneg_left hmem.2 (by linarith)
        dsimp only
        linarith

theorem C5_witness :
    (get_current_limit_max_throttle { m0 with armed := false } battCur = (1, 1)) ∧
    ((0.2 ≤ (get_current_limit_max_throttle
          { m0 with batt_current_max := 60 } battCur).2 ∧
        (get_current_limit_max_throttle
          { m0 with batt_current_max := 60 } battCur).2 ≤ 1) ∧
      ({ m0 with batt_current_max := 60 } : Motors).throttle_hover ≤
        (get_current_limit_max_throttle
          { m0 with batt_current_max := 60 } battCur).1 ∧
      (get_current_limit_max_throttle
          { m0 with batt_current_max := 60 } battCur).1 ≤ 1) :=
  ⟨(C5_current_limit { m0 with armed := false } battCur).1 (Or.inl rfl),
   (C5_current_limit { m0 with batt_current_max := 60 } battCur).2 rfl
      (by norm_num) (by simp [battCur]) (by norm_num [battCur])
      (by norm_num [m0])⟩

/-- C6: `set_actuator_with_slew` raises the previous output by at most
`dt/constrain(slew_up_time, 0, 0.5)` when `slew_up_time > 0`, lowers it by
at most `dt/constrain(slew_dn_time, 0, 0.5)` when `slew_dn_time > 0`, and
always lands in `[0, 1]`. -/
theorem slew_core (prev input du dd : ℚ) (hp0 : 0 ≤ prev) (hp1 : prev ≤ 1)
    (hdu : 0 ≤ du) (hdd : 0 ≤ dd) :
    constrain_float input (constrain_float (prev - dd) 0 1)
        (constrain_float (prev + du) 0 1) - prev ≤ du ∧
    prev - constrain_float input (constrain_float (prev - dd) 0 1)
        (constrain_float (prev + du) 0 1) ≤ dd ∧
    0 ≤ constrain_float input (constrain_float (prev - dd) 0 1)
        (constrain_float (prev + du) 0 1) ∧
    constrain_float input (constrain_float (prev - dd) 0 1)
        (constrain_float (prev + du) 0 1) ≤ 1 := by
  unfold constrain_float
  split_ifs <;> exact ⟨by linarith, by linarith, by linarith, by linarith⟩

theorem constrain_float_zero : constrain_float 0 0 1 = 0 := by
  norm_num [constrain_float]

theorem constrain_float_one : constrain_float 1 0 1 = 1 := by
  norm_num [constrain_float]

theorem C6_slew_limits (m : Motors) (prev input : ℚ)
    (hp0 : 0 ≤ prev) (hp1 : prev ≤ 1) (hdt : 0 ≤ m.dt_s) :
    (0 < m.slew_up_time →
      set_actuator_with_slew m prev input - prev ≤
        m.dt_s / constrain_float m.slew_up_time 0 0.5) ∧
    (0 < m.slew_dn_time →
      prev - set_actuator_with_slew m prev input ≤
        m.dt_s / constrain_float m.slew_dn_time 0 0.5) ∧
    0 ≤ set_actuator_with_slew m prev input ∧
    set_actuator_with_slew m prev input ≤ 1 := by
  have hcu : 0 < m.slew_up_time → 0 < constrain_float m.slew_up_time 0 0.5 := by
    intro h
    unfold constrain_float
    split_ifs <;> first | linarith | norm_num
  have hcd : 0 < m.slew_dn_time → 0 < constrain_float m.slew_dn_time 0 0.5 := by
    intro h
    unfold constrain_float
    split_ifs <;> first | linarith | norm_num
  simp only [set_actuator_with_slew]
  by_cases hu : 0 < m.slew_up_time <;> by_cases hd : 0 < m.slew_dn_time
  · simp only [if_pos hu, if_pos hd]
    have h := slew_core prev input
      (m.dt_s / constrain_float m.slew_up_time 0 0.5)
      (m.dt_s / constrain_float m.slew_dn_time 0 0.5)
      hp0 hp1 (div_nonneg hdt (hcu hu).le) (div_nonneg hdt (hcd hd).le)
    exact ⟨fun _ => h.1, fun _ => h.2.1, h.2.2.1, h.2.2.2⟩
  · simp only [if_pos hu, if_neg hd]
    have h := slew_core prev input
      (m.dt_s / constrain_float m.slew_up_time 0 0.5) prev
      hp0 hp1 (div_nonneg hdt (hcu hu).le) hp0
    rw [sub_self, constrain_float_zero] at h
    exact ⟨fun _ => h.1, fun hx => absurd hx hd, h.2.2.1, h.2.2.2⟩
  · simp only [if_neg hu, if_pos hd]
    have h := slew_core prev input (1 - prev)
      (m.dt_s / constrain_float m.slew_dn_time 0 0.5)
      hp0 hp1 (by linarith) (div_nonneg hdt (hcd hd).le)
    rw [show prev + (1 - prev) = 1 by ring, constrain_float_one] at h
    exact ⟨fun hx => absurd hx hu, fun _ => h.2.1, h.2.2.1, h.2.2.2⟩
  · simp only [if_neg hu, if_neg hd]
    have h := slew_core prev input (1 - prev) prev hp0 hp1 (by linarith) hp0
    rw [show prev + (1 - prev) = 1 by ring, constrain_float_one,
      sub_self, constrain_float_zero] at h
    exact ⟨fun hx => absurd hx hu, fun hx => absurd hx hd, h.2.2.1, h.2.2.2⟩

theorem C6_witness :
    (0 : ℚ) ≤ 0.2 ∧ (0.2 : ℚ) ≤ 1 ∧
      (0 : ℚ) ≤ ({ m0 with slew_up_time := 0.1, dt_s := 0.01 } : Motors).dt_s ∧
      (set_actuator_with_slew { m0 with slew_up_time := 0.1, dt_s := 0.01 } 0.2 0.9 - 0.2 ≤
        ({ m0 with slew_up_time := 0.1, dt_s := 0.01 } : Motors).dt_s /
          constrain_float ({ m0 with slew_up_time := 0.1, dt_s := 0.01 } : Motors).slew_up_time 0 0.5) :=
  ⟨by norm_num, by norm_num, by norm_num [m0],
    (C6_slew_limits { m0 with slew_up_time := 0.1, dt_s := 0.01 } 0.2 0.9
      (by norm_num) (by norm_num) (by norm_num [m0])).1 (by norm_num [m0])⟩

/-- C2 counterexample: in a non-SHUT_DOWN state with `pwm_min = 1000`,
`pwm_max = 2001` and actuator `1/2`, `output_to_pwm` returns 1500, not the
claimed exact value `pwm_min + (pwm_max − pwm_min)·actuator = 1500.5`
(the C++ return type is `int16_t`). -/
theorem C2_counterexample :
    ({ m0 with spool_state := SpoolState.GROUND_IDLE, pwm_max := 2001 } :
        Motors).spool_state ≠ SpoolState.SHUT_DOWN ∧
    (0 : ℚ) ≤ 1 / 2 ∧ (1 / 2 : ℚ) ≤ 1 ∧
    ((output_to_pwm { m0 with spool_state := SpoolState.GROUND_IDLE, pwm_max := 2001 }
        (1 / 2) : ℚ) ≠ (1000 : ℚ) + ((2001 : ℚ) - (1000 : ℚ)) * (1 / 2)) := by
  refine ⟨by decide, by norm_num, by norm_num, ?_⟩
  have hv : output_to_pwm
      { m0 with spool_state := SpoolState.GROUND_IDLE, pwm_max := 2001 } (1 / 2) = 1500 := by
    norm_num [output_to_pwm, truncQ, m0,
      show SpoolState.GROUND_IDLE ≠ SpoolState.SHUT_DOWN from by decide]
  rw [hv]
  norm_num

/-- C2 (amended): `output_to_pwm` returns 0 in SHUT_DOWN with
`disarm_disable_pwm` set while disarmed, `pwm_min` in SHUT_DOWN otherwise,
and in every other spool state the truncation toward zero (the `int16_t`
conversion) of `pwm_min + (pwm_max − pwm_min)·actuator`; the result always
lies in `{0} ∪ [pwm_min, pwm_max]` when `pwm_min ≤ pwm_max` and the
actuator is in `[0, 1]`. -/
theorem C2_output_to_pwm (m : Motors) (act : ℚ)
    (ha0 : 0 ≤ act) (ha1 : act ≤ 1) (hpw : m.pwm_min ≤ m.pwm_max) :
    (m.spool_state = SpoolState.SHUT_DOWN →
      (m.disarm_disable_pwm = true ∧ m.armed = false →
        output_to_pwm m act = 0) ∧
      (m.disarm_disable_pwm = false ∨ m.armed = true →
        output_to_pwm m act = m.pwm_min)) ∧
    (m.spool_state ≠ SpoolState.SHUT_DOWN →
      output_to_pwm m act =
        truncQ ((m.pwm_min : ℚ) + ((m.pwm_max : ℚ) - (m.pwm_min : ℚ)) * act)) ∧
    (output_to_pwm m act = 0 ∨
      (m.pwm_min ≤ output_to_pwm m act ∧ output_to_pwm m act ≤ m.pwm_max)) := by
  have hpwq : (m.pwm_min : ℚ) ≤ (m.pwm_max : ℚ) := by exact_mod_cast hpw
  have hlow : (m.pwm_min : ℚ) ≤
      (m.pwm_min : ℚ) + ((m.pwm_max : ℚ) - (m.pwm_min : ℚ)) * act := by
    nlinarith
  have hhigh : (m.pwm_min : ℚ) + ((m.pwm_max : ℚ) - (m.pwm_min : ℚ)) * act ≤
      (m.pwm_max : ℚ) := by
    nlinarith
  unfold output_to_pwm
  split_ifs with h1 h2
  · refine ⟨fun _ => ⟨fun _ => ?_, fun hc => ?_⟩, fun hne => absurd h1 hne, ?_⟩
    · simp [truncQ]
    · simp only [Bool.and_eq_true, Bool.not_eq_true'] at h2
      rcases hc with hc | hc
      · rw [h2.1] at hc
        exact absurd hc (by simp)
      · rw [h2.2] at hc
        exact absurd hc (by simp)
    · left
      simp [truncQ]
  · refine ⟨fun _ => ⟨fun hc => ?_, fun _ => ?_⟩, fun hne => absurd h1 hne, ?_⟩
    · exact absurd (by simp [hc.1, hc.2] : (m.disarm_disable_pwm && !m.armed) = true) h2
    · exact truncQ_intCast m.pwm_min
    · right
      rw [truncQ_intCast m.pwm_min]
      exact ⟨le_refl _, hpw⟩
  · refine ⟨fun hc => absurd hc h1, fun _ => rfl, Or.inr ?_⟩
    exact truncQ_mem _ m.pwm_min m.pwm_max hlow hhigh

theorem C2_witness :
    (0 : ℚ) ≤ 1 / 2 ∧ (1 / 2 : ℚ) ≤ 1 ∧
    ({ m0 with spool_state := SpoolState.GROUND_IDLE } : Motors).pwm_min ≤
      ({ m0 with spool_state := SpoolState.GROUND_IDLE } : Motors).pwm_max ∧
    (output_to_pwm { m0 with spool_state := SpoolState.GROUND_IDLE } (1 / 2) = 0 ∨
      (({ m0 with spool_state := SpoolState.GROUND_IDLE } : Motors).pwm_min ≤
          output_to_pwm { m0 with spool_state := SpoolState.GROUND_IDLE } (1 / 2) ∧
        output_to_pwm { m0 with spool_state := SpoolState.GROUND_IDLE } (1 / 2) ≤
          ({ m0 with spool_state := SpoolState.GROUND_IDLE } : Motors).pwm_max)) :=
  ⟨by norm_num, by norm_num, by norm_num [m0],
    (C2_output_to_pwm { m0 with spool_state := SpoolState.GROUND_IDLE } (1 / 2)
      (by norm_num) (by norm_num) (by norm_num [m0])).2.2⟩

theorem arming_checks_spin_arm_msg (m : Motors) (env : ArmingEnv)
    (hb : env.base_checks = true)
    (hfind : (List.range AP_MOTORS_MAX_NUM_MOTORS).find?
      (fun i => m.motor_enabled i && !env.find_channel i) = none)
    (hsm : ¬(m.spin_min > 0.3))
    (hlt : m.spin_min < m.spin_arm) :
    arming_checks m env =
      (false, some (mot_param_pfx ++ "SPIN_ARM > " ++ mot_param_pfx ++ "SPIN_MIN")) := by
  unfold arming_checks
  rw [hb]
  simp only [Bool.not_true, Bool.false_eq_true, if_false, hfind]
  rw [if_neg hsm, if_pos hlt]

/-- C8 counterexample: with `spin_arm = 0.2 > spin_min = 0.15` and every
earlier check passing, `arming_checks` returns false, but the message it
writes is "MOT_SPIN_ARM > MOT_SPIN_MIN", which does not contain the
substring "SPIN_ARM > SPIN_MIN" claimed (each parameter name carries the
`MOT_` prefix). -/
theorem C8_counterexample :
    arming_checks
        { m0 with
          spin_arm := 0.2, spin_min := 0.15, motor_enabled := fun _ => false }
        { base_checks := true, base_msg := "", find_channel := fun _ => false } =
      (false, some (mot_param_pfx ++ "SPIN_ARM > " ++ mot_param_pfx ++ "SPIN_MIN")) ∧
    mot_param_pfx ++ "SPIN_ARM > " ++ mot_param_pfx ++ "SPIN_MIN" =
      "MOT_SPIN_ARM > MOT_SPIN_MIN" ∧
    strContains "MOT_SPIN_ARM > MOT_SPIN_MIN" "SPIN_ARM > SPIN_MIN" = false := by
  refine ⟨arming_checks_spin_arm_msg _ _ rfl ?_ (by norm_num) (by norm_num), rfl, ?_⟩
  · rw [List.find?_eq_none]
    intro i _
    simp
  · decide

/-- C8 (amended): when the base checks pass, every enabled motor has a
channel function, `spin_min ≤ 0.3` and `spin_arm > spin_min`,
`arming_checks` returns false with the message
"`MOT_`SPIN_ARM > `MOT_`SPIN_MIN"; and, for every configuration and
environment, it returns true only when the base checks pass, every
enabled motor has a channel function, `spin_min ≤ 0.3`,
`spin_arm ≤ spin_min`, and `pwm_min ≥ 1 ∧ pwm_min < pwm_max` — so arming
fails whenever any of these predicates is false. -/
theorem C8_arming_checks (m : Motors) (env : ArmingEnv) :
    (env.base_checks = true →
      (∀ i, i < AP_MOTORS_MAX_NUM_MOTORS → m.motor_enabled i = true →
        env.find_channel i = true) →
      m.spin_min ≤ 0.3 → m.spin_min < m.spin_arm →
      arming_checks m env =
        (false, some (mot_param_pfx ++ "SPIN_ARM > " ++ mot_param_pfx ++ "SPIN_MIN"))) ∧
    ((arming_checks m env).1 = true →
      env.base_checks = true ∧
      (∀ i, i < AP_MOTORS_MAX_NUM_MOTORS → m.motor_enabled i = true →
        env.find_channel i = true) ∧
      m.spin_min ≤ 0.3 ∧ m.spin_arm ≤ m.spin_min ∧
      1 ≤ m.pwm_min ∧ m.pwm_min < m.pwm_max) := by
  constructor
  · intro hb hch hsm hlt
    have hfind : (List.range AP_MOTORS_MAX_NUM_MOTORS).find?
        (fun i => m.motor_enabled i && !env.find_channel i) = none := by
      rw [List.find?_eq_none]
      intro i hi
      rw [List.mem_range] at hi
      simp only [Bool.and_eq_true, Bool.not_eq_true', not_and]
      intro h1 h2
      rw [hch i hi h1] at h2
      exact Bool.noConfusion h2
    exact arming_checks_spin_arm_msg m env hb hfind (not_lt.mpr hsm) hlt
  · intro htrue
    unfold arming_checks at htrue
    by_cases hbb : env.base_checks = true
    · rw [hbb] at htrue
      simp only [Bool.not_true, Bool.false_eq_true, if_false] at htrue
      cases hfd : (List.range AP_MOTORS_MAX_NUM_MOTORS).find?
          (fun i => m.motor_enabled i && !env.find_channel i) with
      | some i => simp [hfd] at htrue
      | none =>
        simp only [hfd] at htrue
        split_ifs at htrue with h1 h2 h3
        have hch : ∀ i, i < AP_MOTORS_MAX_NUM_MOTORS → m.motor_enabled i = true →
            env.find_channel i = true := by
          intro i hi he
          have hx := List.find?_eq_none.mp hfd i (List.mem_range.mpr hi)
          simp only [Bool.and_eq_true, Bool.not_eq_true', not_and] at hx
          cases hfc : env.find_channel i
          · exact absurd hfc (hx he)
          · rfl
        refine ⟨hbb, hch, not_lt.mp h1, not_lt.mp h2, ?_⟩
        simp only [check_mot_pwm_params, Bool.not_eq_true', Bool.not_eq_false,
          Bool.or_eq_false_iff, decide_eq_false_iff_not, not_lt, not_le] at h3
        exact ⟨h3.1, h3.2⟩
    · have hbf : env.base_checks = false := by
        cases hx : env.base_checks
        · rfl
        · exact absurd hx hbb
      rw [hbf] at htrue
      simp at htrue

theorem C8_witness :
    ({ base_checks := true, base_msg := "", find_channel := fun _ => true } :
        ArmingEnv).base_checks = true ∧
    ({ m0 with spin_arm := 0.2, spin_min := 0.15 } : Motors).spin_min ≤ 0.3 ∧
    ({ m0 with spin_arm := 0.2, spin_min := 0.15 } : Motors).spin_min <
      ({ m0 with spin_arm := 0.2, spin_min := 0.15 } : Motors).spin_arm ∧
    arming_checks { m0 with spin_arm := 0.2, spin_min := 0.15 }
        { base_checks := true, base_msg := "", find_channel := fun _ => true } =
      (false, some (mot_param_pfx ++ "SPIN_ARM > " ++ mot_param_pfx ++ "SPIN_MIN")) :=
  ⟨rfl, by norm_num, by norm_num,
    (C8_arming_checks { m0 with spin_arm := 0.2, spin_min := 0.15 }
        { base_checks := true, base_msg := "", find_channel := fun _ => true }).1
      rfl (fun _ _ _ => rfl) (by norm_num) (by norm_num)⟩

/-- C1: whenever `output_logic` leaves `spool_state` equal to SHUT_DOWN it
also leaves `spin_up_ratio = 0` and `throttle_thrust_max = 0`. -/
theorem C1_shutdown_invariant (m : Motors) (batt : BattInput)
    (h : (output_logic m batt).spool_state = SpoolState.SHUT_DOWN) :
    (output_logic m batt).spin_up_ratio = 0 ∧
    (output_logic m batt).throttle_thrust_max = 0 := by
  unfold output_logic at h ⊢
  set n := output_logic_pre m with hn
  unfold output_logic_switch at h ⊢
  cases hsp : n.spool_state
  case SHUT_DOWN =>
    simp only [hsp] at h ⊢
    split_ifs at h ⊢ <;>
      first
        | exact ⟨rfl, rfl⟩
        | rfl
        | exact SpoolState.noConfusion h
        | simp_all
  case GROUND_IDLE =>
    simp only [hsp] at h ⊢
    cases hd : n.spool_desired <;> simp only [hd] at h ⊢ <;>
      split_ifs at h ⊢ <;>
      first
        | exact ⟨rfl, rfl⟩
        | rfl
        | exact SpoolState.noConfusion h
        | simp_all
  case SPOOLING_UP =>
    simp only [hsp] at h ⊢
    split_ifs at h ⊢ <;>
      first
        | exact SpoolState.noConfusion h
        | simp_all
  case THROTTLE_UNLIMITED =>
    simp only [hsp] at h ⊢
    split_ifs at h ⊢ <;>
      first
        | exact SpoolState.noConfusion h
        | simp_all
  case SPOOLING_DOWN =>
    simp only [hsp] at h ⊢
    split_ifs at h ⊢ <;>
      first
        | exact SpoolState.noConfusion h
        | simp_all

theorem C1_witness :
    (output_logic { m0 with armed := false } batt0).spool_state =
        SpoolState.SHUT_DOWN ∧
      (output_logic { m0 with armed := false } batt0).spin_up_ratio = 0 ∧
      (output_logic { m0 with armed := false } batt0).throttle_thrust_max = 0 := by
  have h : (output_logic { m0 with armed := false } batt0).spool_state =
      SpoolState.SHUT_DOWN := by
    norm_num [output_logic, output_logic_pre, output_logic_switch, m0, batt0,
      minimum_spool_time, limitsAllTrue]
  exact ⟨h, C1_shutdown_invariant { m0 with armed := false } batt0 h⟩

theorem output_logic_pre_armed (m : Motors) (ha : m.armed = true)
    (hi : m.interlock = true) (ht : minimum_spool_time ≤ m.spool_up_time) :
    ∃ T, output_logic_pre m = { m with disarm_safe_timer := T } := by
  by_cases hdd : (m.disarm_disable_pwm && decide (m.disarm_safe_timer < m.safe_time)) = true
  · refine ⟨m.disarm_safe_timer + m.dt_s, ?_⟩
    unfold output_logic_pre
    rw [if_pos ha, if_pos hdd]
    simp only [ha, hi, Bool.not_true, Bool.or_self, Bool.false_eq_true, if_false]
    rw [if_neg (not_lt.mpr ht)]
  · refine ⟨m.safe_time, ?_⟩
    unfold output_logic_pre
    rw [if_pos ha, if_neg hdd]
    simp only [ha, hi, Bool.not_true, Bool.or_self, Bool.false_eq_true, if_false]
    rw [if_neg (not_lt.mpr ht)]

/-- C4: in SPOOLING_UP with `spool_desired == THROTTLE_UNLIMITED` (armed,
interlocked, `spool_up_time` at least the 0.05 s minimum), `output_logic`
adds `dt/spool_up_time` to `throttle_thrust_max`; whenever the result is
`≥ min(get_throttle(), current_limit_max_throttle)` it snaps
`throttle_thrust_max` to a fresh evaluation of
`get_current_limit_max_throttle` (whose `throttle_limit` threading is
explicit) and moves to THROTTLE_UNLIMITED in the same tick, and otherwise
(when the ramped value is nonnegative) it keeps the ramped value and stays
in SPOOLING_UP. -/
theorem C4_spooling_up (m : Motors) (batt : BattInput)
    (hs : m.spool_state = SpoolState.SPOOLING_UP)
    (hd : m.spool_desired = DesiredSpoolState.THROTTLE_UNLIMITED)
    (ha : m.armed = true) (hi : m.interlock = true)
    (ht : minimum_spool_time ≤ m.spool_up_time) :
    (m.throttle_thrust_max + m.dt_s / m.spool_up_time ≥
        min (get_throttle m) (get_current_limit_max_throttle m batt).1 →
      (output_logic m batt).spool_state = SpoolState.THROTTLE_UNLIMITED ∧
      (output_logic m batt).throttle_thrust_max =
        (get_current_limit_max_throttle
          { m with throttle_limit := (get_current_limit_max_throttle m batt).2 }
          batt).1) ∧
    (¬(m.throttle_thrust_max + m.dt_s / m.spool_up_time ≥
        min (get_throttle m) (get_current_limit_max_throttle m batt).1) →
      0 ≤ m.throttle_thrust_max + m.dt_s / m.spool_up_time →
      (output_logic m batt).spool_state = SpoolState.SPOOLING_UP ∧
      (output_logic m batt).throttle_thrust_max =
        m.throttle_thrust_max + m.dt_s / m.spool_up_time) := by
  obtain ⟨T, hT⟩ := output_logic_pre_armed m ha hi ht
  unfold output_logic
  rw [hT]
  unfold output_logic_switch
  simp only [hs, hd, ne_eq, not_true_eq_false, if_false]
  refine ⟨fun hsnap => ?_, fun hnsnap hnn => ?_⟩
  · split_ifs with h1 h2
    · exact ⟨rfl, rfl⟩
    · exact absurd hsnap h1
    · exact absurd hsnap h1
  · split_ifs with h1 h2
    · exact absurd h1 hnsnap
    · exact absurd h2 (not_lt.mpr hnn)
    · exact ⟨rfl, rfl⟩

theorem C4_witness :
    (output_logic
        { m0 with
          spool_state := SpoolState.SPOOLING_UP,
          throttle_thrust_max := 9 / 10 } batt0).spool_state =
      SpoolState.THROTTLE_UNLIMITED ∧
    (output_logic
        { m0 with
          spool_state := SpoolState.SPOOLING_UP,
          throttle_thrust_max := 9 / 10 } batt0).throttle_thrust_max =
      (get_current_limit_max_throttle
        { { m0 with
            spool_state := SpoolState.SPOOLING_UP,
            throttle_thrust_max := 9 / 10 } with
          throttle_limit :=
            (get_current_limit_max_throttle
              { m0 with
                spool_state := SpoolState.SPOOLING_UP,
                throttle_thrust_max := 9 / 10 } batt0).2 } batt0).1 :=
  (C4_spooling_up
      { m0 with
        spool_state := SpoolState.SPOOLING_UP, throttle_thrust_max := 9 / 10 }
      batt0 rfl rfl rfl rfl (by norm_num [m0, minimum_spool_time])).1
    (by norm_num [m0, batt0, get_throttle, constrain_float,
      get_current_limit_max_throttle, min_def])

end MotorsMC
